import Mathlib

/-!
# crun: the `wasm_nodejs` execution handler

A shallow embedding of `src/libcrun/handlers/wasm_nodejs.c`.

The handler talks to three things outside itself: the dynamic loader
(`dlsym`, `dlclose`, `dlerror`), the C library's stream functions, and the
Node.js embedding API reached through the function pointers that `dlsym`
returned.  Each of them is an oracle of the `World`; a run of
`libwasm_nodejs_exec` is a pure function from the world and the arguments to
an `Outcome`: the external calls made, in order and with their arguments, the
message handed to `error`, and the status the process ends with.

Modelling conventions:
* pointers and engine handles are natural numbers, `NULL` is `0`;
* a heap buffer is identified with the bytes it holds; `malloc`, `fseek` and
  `ftell` are taken to succeed on an opened stream;
* every engine call site has one response (status and value written through
  the result pointer); a run consults the responses in program order.
-/

namespace WasmNodejs

/-! ## Constants and basic types -/

/-- A pointer or an engine handle (`napi_platform`, `napi_env`, `napi_value`). -/
abbrev Ptr := Nat

/-- The null pointer. -/
def NULL : Ptr := 0

/-- One byte of the entrypoint file. -/
abbrev Byte := Fin 256

/-- The status type of the embedding API (`js_native_api_types.h`, a Node.js header). -/
abbrev napi_status := Nat

/-- The status `napi_ok`, the first enumerator of `napi_status`. -/
def napi_ok : napi_status := 0

/-- `NAPI_AUTO_LENGTH` is `SIZE_MAX` in `js_native_api.h`. -/
def NAPI_AUTO_LENGTH : Nat := 2 ^ 64 - 1

/-- `EXIT_FAILURE` of `stdlib.h`. -/
def EXIT_FAILURE : Int := 1

/-- The `whence` argument of `fseek`. -/
inductive Whence where
  | SEEK_SET
  | SEEK_END
  deriving DecidableEq, Repr

/-- The external calls a run can make, with the arguments passed.  `free` belongs
to the vocabulary of the C library although the handler never issues it. -/
inductive Event where
  | dlsym (handle : Ptr) (symbol : String)
  | dlclose (handle : Ptr)
  | dlerror
  | fopen (pathname : String) (mode : String)
  | fseek (offset : Int) (whence : Whence)
  | ftell
  | malloc (size : Nat)
  | fread (size : Nat) (nmemb : Nat)
  | fclose
  | free (data : List Byte)
  | create_platform (argc : Int) (argv : List String) (exec_argc : Int) (exec_argv : Ptr)
      (errors : Ptr) (thread_pool_size : Int)
  | create_environment (platform : Ptr) (errors : Ptr) (main_script : Ptr)
  | create_external_buffer (env : Ptr) (length : Nat) (data : List Byte) (finalize_cb : Ptr)
      (finalize_hint : Ptr)
  | get_global (env : Ptr)
  | create_string_latin1 (env : Ptr) (str : String) (length : Nat)
  | set_property (env : Ptr) (object : Ptr) (key : Ptr) (value : Ptr)
  | run_script (env : Ptr) (script : Ptr)
  | run_environment (env : Ptr)
  | destroy_environment (env : Ptr)
  | destroy_platform (platform : Ptr)
  deriving DecidableEq, Repr

/-- The ten embedding-API functions the session calls. -/
inductive Api where
  | create_platform
  | create_environment
  | create_external_buffer
  | get_global
  | create_string_latin1
  | set_property
  | run_script
  | run_environment
  | destroy_environment
  | destroy_platform
  deriving DecidableEq, Repr

/-- The embedding-API function an event is a call of, if it is one. -/
def Event.api? : Event → Option Api
  | .create_platform .. => some .create_platform
  | .create_environment .. => some .create_environment
  | .create_external_buffer .. => some .create_external_buffer
  | .get_global .. => some .get_global
  | .create_string_latin1 .. => some .create_string_latin1
  | .set_property .. => some .set_property
  | .run_script .. => some .run_script
  | .run_environment .. => some .run_environment
  | .destroy_environment .. => some .destroy_environment
  | .destroy_platform .. => some .destroy_platform
  | .dlsym .. => none
  | .dlclose .. => none
  | .dlerror => none
  | .fopen .. => none
  | .fseek .. => none
  | .ftell => none
  | .malloc .. => none
  | .fread .. => none
  | .fclose => none
  | .free .. => none

/-- The engine calls of a trace, by function, in order. -/
def engineCalls (t : List Event) : List Api := t.filterMap Event.api?

/-! ## The world -/

/-- The entrypoint file as the stream functions see it: its bytes, and how many
bytes a read from the start transfers before end of file or an I/O error. -/
structure EntryFile where
  contents : List Byte
  delivered : Nat
  deriving DecidableEq, Repr

/-- The model of `fread (ptr, size, nmemb, stream)` on a stream positioned at the start:
the number of complete items read and the bytes stored.  When `size` or `nmemb`
is zero, `fread` returns zero. -/
def fread (f : EntryFile) (size nmemb : Nat) : Nat × List Byte :=
  let got := f.contents.take (min (size * nmemb) f.delivered)
  (if size = 0 ∨ nmemb = 0 then 0 else got.length / size, got)

/-- The response of the engine at each of the eleven call sites of the session:
the status returned and the value written through the result pointer. -/
structure Engine where
  create_platform_status : napi_status
  platform : Ptr
  create_environment_status : napi_status
  env : Ptr
  create_external_buffer_status : napi_status
  wasm_buffer : Ptr
  get_global_status : napi_status
  global : Ptr
  create_key_status : napi_status
  wasm_key : Ptr
  set_property_status : napi_status
  create_script_status : napi_status
  script : Ptr
  run_script_status : napi_status
  result : Ptr
  run_environment_status : napi_status
  destroy_environment_status : napi_status
  destroy_platform_status : napi_status
  exit_code : Int
  deriving DecidableEq, Repr

/-- Everything outside the handler that a run depends on. -/
structure World where
  /-- The address `dlsym (handle, symbol)` returns, `NULL` when the symbol is absent. -/
  dlsym : Ptr → String → Ptr
  /-- The stream `fopen (pathname, "rb")` returns, `none` for a null stream. -/
  fopen : String → Option EntryFile
  engine : Engine

/-- How a run ends: the external calls made, the message given to `error` (if any),
and the status the process terminates with, which is the value passed to `exit`
(by `error` or by the handler itself). -/
structure Outcome where
  trace : List Event
  diagnostic : Option String
  exit_status : Int
  deriving DecidableEq, Repr

/-- The continuation of a run after the calls `evs` were made. -/
def emit (evs : List Event) (rest : Outcome) : Outcome :=
  { rest with trace := evs ++ rest.trace }

/-- The call `error (status, 0, message)` with a non-zero status: the message is
printed and the process exits with that status. -/
def error (status : Int) (message : String) : Outcome :=
  { trace := [], diagnostic := some message, exit_status := status }

/-- The call `exit (code)`. -/
def exit (code : Int) : Outcome :=
  { trace := [], diagnostic := none, exit_status := code }

/-- The `NODE_API_CHECK (message)` statement followed by the rest of the function. -/
def NODE_API_CHECK (status : napi_status) (message : String) (rest : Outcome) : Outcome :=
  if status ≠ napi_ok then error EXIT_FAILURE message else rest

/-! ## `libwasm_nodejs_exec` -/

/-- The array `the_argv` passed to `create_platform`. -/
def the_argv : List String :=
  ["libnode", "--experimental-wasi-unstable-preview1", "--no-warnings"]

/-- The string `script_chars`; the line continuations of the C literal keep the
leading blanks of the following line. -/
def script_chars : String :=
  "(async () => \x7b " ++
  "    const \x7b WASI \x7d = this.require(\x27wasi\x27); " ++
  "    const wasi = new WASI(\x7b preopens: \x7b \x27.\x27: \x27.\x27 \x7d\x7d); " ++
  "    const wasm = await (this.WebAssembly.compile(this.wasm)); " ++
  "    const instance = await this.WebAssembly.instantiate(wasm, \x7bwasi_snapshot_preview1: wasi.wasiImport\x7d); " ++
  "    wasi.start(instance) " ++
  "  \x7d)();"

/-- The message reported when a symbol is missing. -/
def symbol_message : String := "could not find symbol in \x60libnode.so\x60"

/-- The function `libwasm_nodejs_exec (cookie, container, pathname, argv)`.  It has no
return path: every run ends in `error (EXIT_FAILURE, ...)` or in `exit (exit_code)`. -/
def libwasm_nodejs_exec {Container : Type} (w : World) (cookie : Ptr) (container : Container)
    (pathname : String) (argv : List String) : Outcome :=
  let create_platform := w.dlsym cookie "napi_create_platform"
  let create_environment := w.dlsym cookie "napi_create_environment"
  let create_string_latin1 := w.dlsym cookie "napi_create_string_latin1"
  let run_script := w.dlsym cookie "napi_run_script"
  let create_external_arraybuffer := w.dlsym cookie "napi_create_external_arraybuffer"
  let get_global := w.dlsym cookie "napi_get_global"
  let set_property := w.dlsym cookie "napi_set_property"
  let create_typedarray := w.dlsym cookie "napi_create_typedarray"
  let create_external_buffer := w.dlsym cookie "napi_create_external_buffer"
  let run_environment := w.dlsym cookie "napi_run_environment"
  let destroy_platform := w.dlsym cookie "napi_destroy_platform"
  let destroy_environment := w.dlsym cookie "napi_destroy_environment"
  emit [.dlsym cookie "napi_create_platform",
        .dlsym cookie "napi_create_environment",
        .dlsym cookie "napi_create_string_latin1",
        .dlsym cookie "napi_run_script",
        .dlsym cookie "napi_create_external_arraybuffer",
        .dlsym cookie "napi_get_global",
        .dlsym cookie "napi_set_property",
        .dlsym cookie "napi_create_typedarray",
        .dlsym cookie "napi_create_external_buffer",
        .dlsym cookie "napi_run_environment",
        .dlsym cookie "napi_destroy_platform",
        .dlsym cookie "napi_destroy_environment"] <|
  if create_platform = NULL ∨
     create_environment = NULL ∨
     create_string_latin1 = NULL ∨
     create_external_arraybuffer = NULL ∨
     get_global = NULL ∨
     run_script = NULL ∨
     create_typedarray = NULL ∨
     create_external_buffer = NULL ∨
     run_environment = NULL ∨
     destroy_environment = NULL ∨
     destroy_platform = NULL ∨
     set_property = NULL then
    error EXIT_FAILURE symbol_message
  else
  emit [.fopen pathname "rb"] <|
  match w.fopen pathname with
  | none => error EXIT_FAILURE "error loading entrypoint"
  | some file =>
  let file_size := file.contents.length
  let rd := fread file file_size 1
  emit [.fseek 0 .SEEK_END, .ftell, .malloc file_size, .fseek 0 .SEEK_SET,
        .fread file_size 1] <|
  if rd.1 ≠ 1 then error EXIT_FAILURE "error load" else
  let wasm_bytes := rd.2
  emit [.fclose] <|
  let e := w.engine
  emit [.create_platform 3 the_argv 0 NULL NULL 0] <|
  NODE_API_CHECK e.create_platform_status "Failed to create platform" <|
  emit [.create_environment e.platform NULL NULL] <|
  NODE_API_CHECK e.create_environment_status "Failed to create environment" <|
  emit [.create_external_buffer e.env file_size wasm_bytes NULL NULL] <|
  NODE_API_CHECK e.create_external_buffer_status "Failed to create buffer for wasm" <|
  emit [.get_global e.env] <|
  NODE_API_CHECK e.get_global_status "Failed to get global object" <|
  emit [.create_string_latin1 e.env "wasm" NAPI_AUTO_LENGTH] <|
  NODE_API_CHECK e.create_key_status "Failed to create wasm key string" <|
  emit [.set_property e.env e.global e.wasm_key e.wasm_buffer] <|
  NODE_API_CHECK e.set_property_status "Failed to set wasm object on global object" <|
  emit [.create_string_latin1 e.env script_chars script_chars.utf8ByteSize] <|
  NODE_API_CHECK e.create_script_status "Failed to create script to run wasm" <|
  emit [.run_script e.env e.script] <|
  NODE_API_CHECK e.run_script_status "failed to run script" <|
  emit [.run_environment e.env] <|
  NODE_API_CHECK e.run_environment_status "failed to run environment" <|
  emit [.destroy_environment e.env] <|
  NODE_API_CHECK e.destroy_environment_status "failed to destroy environment" <|
  emit [.destroy_platform e.platform] <|
  NODE_API_CHECK e.destroy_platform_status "failed to destroy platform" <|
  exit e.exit_code

/-! ## `libwasm_nodejs_unload` -/

/-- What `libwasm_nodejs_unload` leaves behind: the loader calls made, the value
returned, and the error stored through `err` (its status and message), if any. -/
structure UnloadResult where
  trace : List Event
  ret : Int
  err : Option (Int × String)
  deriving DecidableEq, Repr

/-- The function `libwasm_nodejs_unload (cookie, err)`.  `dlclose` gives the value the
loader returns for a handle and `dlerror` the text it reports; `crun_make_error`
(declared in `utils.h`) stores its status and formatted message through `err`, and
`make_error_ret` is the value it returns. -/
def libwasm_nodejs_unload (dlclose : Ptr → Int) (dlerror : String) (make_error_ret : Int)
    (cookie : Ptr) : UnloadResult :=
  if cookie ≠ NULL then
    let r := dlclose cookie
    if r < 0 then
      { trace := [.dlclose cookie, .dlerror],
        ret := make_error_ret,
        err := some (0, "could not unload handle: " ++ dlerror) }
    else
      { trace := [.dlclose cookie], ret := 0, err := none }
  else
    { trace := [], ret := 0, err := none }

/-! ## Vocabulary of the properties -/

/-- The twelve symbol names the handler looks up, in the order of the `dlsym` calls. -/
def requiredSymbols : List String :=
  ["napi_create_platform",
   "napi_create_environment",
   "napi_create_string_latin1",
   "napi_run_script",
   "napi_create_external_arraybuffer",
   "napi_get_global",
   "napi_set_property",
   "napi_create_typedarray",
   "napi_create_external_buffer",
   "napi_run_environment",
   "napi_destroy_platform",
   "napi_destroy_environment"]

/-- Every required symbol resolves in the library behind `cookie`. -/
def allResolved (w : World) (cookie : Ptr) : Prop :=
  ∀ s ∈ requiredSymbols, w.dlsym cookie s ≠ NULL

/-- Some required symbol does not resolve. -/
def someMissing (w : World) (cookie : Ptr) : Prop :=
  ∃ s ∈ requiredSymbols, w.dlsym cookie s = NULL

/-- The read of the entrypoint returns the whole file: it is not empty and the
stream delivers at least its length. -/
def EntryFile.readInFull (f : EntryFile) : Prop :=
  0 < f.contents.length ∧ f.contents.length ≤ f.delivered

/-- The eleven call sites of the session, in program order. -/
inductive Step where
  | create_platform
  | create_environment
  | create_external_buffer
  | get_global
  | create_key
  | set_property
  | create_script
  | run_script
  | run_environment
  | destroy_environment
  | destroy_platform
  deriving DecidableEq, Repr

/-- The position of a call site in the program. -/
def Step.index : Step → Nat
  | .create_platform => 0
  | .create_environment => 1
  | .create_external_buffer => 2
  | .get_global => 3
  | .create_key => 4
  | .set_property => 5
  | .create_script => 6
  | .run_script => 7
  | .run_environment => 8
  | .destroy_environment => 9
  | .destroy_platform => 10

/-- The embedding-API function called at a call site. -/
def Step.api : Step → Api
  | .create_platform => .create_platform
  | .create_environment => .create_environment
  | .create_external_buffer => .create_external_buffer
  | .get_global => .get_global
  | .create_key => .create_string_latin1
  | .set_property => .set_property
  | .create_script => .create_string_latin1
  | .run_script => .run_script
  | .run_environment => .run_environment
  | .destroy_environment => .destroy_environment
  | .destroy_platform => .destroy_platform

/-- The status the engine returns at a call site. -/
def Engine.status (e : Engine) : Step → napi_status
  | .create_platform => e.create_platform_status
  | .create_environment => e.create_environment_status
  | .create_external_buffer => e.create_external_buffer_status
  | .get_global => e.get_global_status
  | .create_key => e.create_key_status
  | .set_property => e.set_property_status
  | .create_script => e.create_script_status
  | .run_script => e.run_script_status
  | .run_environment => e.run_environment_status
  | .destroy_environment => e.destroy_environment_status
  | .destroy_platform => e.destroy_platform_status

/-- The call sites in program order. -/
def steps : List Step :=
  [.create_platform, .create_environment, .create_external_buffer, .get_global, .create_key,
   .set_property, .create_script, .run_script, .run_environment, .destroy_environment,
   .destroy_platform]

/-- The statuses of the eleven call sites in program order. -/
def Engine.statuses (e : Engine) : List napi_status := steps.map e.status

/-- The fixed order of engine calls of a complete session. -/
def sessionOrder : List Api :=
  [.create_platform, .create_environment, .create_external_buffer, .get_global,
   .create_string_latin1, .set_property, .create_string_latin1, .run_script,
   .run_environment, .destroy_environment, .destroy_platform]

/-- The number of leading call sites that return `napi_ok`. -/
def Engine.okCount (e : Engine) : Nat :=
  (e.statuses.takeWhile (fun s => decide (s = napi_ok))).length

/-- The step `s` is the first whose status is not `napi_ok`. -/
def Engine.firstFailure (e : Engine) (s : Step) : Prop :=
  e.status s ≠ napi_ok ∧ ∀ s' : Step, s'.index < s.index → e.status s' = napi_ok

/-- The message of the `NODE_API_CHECK` that follows a call site. -/
def stepMessage : Step → String
  | .create_platform => "Failed to create platform"
  | .create_environment => "Failed to create environment"
  | .create_external_buffer => "Failed to create buffer for wasm"
  | .get_global => "Failed to get global object"
  | .create_key => "Failed to create wasm key string"
  | .set_property => "Failed to set wasm object on global object"
  | .create_script => "Failed to create script to run wasm"
  | .run_script => "failed to run script"
  | .run_environment => "failed to run environment"
  | .destroy_environment => "failed to destroy environment"
  | .destroy_platform => "failed to destroy platform"

/-- Whether the list `p` occurs as a contiguous block at the start of `l`. -/
def startsWith : List Char → List Char → Bool
  | [], _ => true
  | _ :: _, [] => false
  | a :: p, b :: l => a == b && startsWith p l

/-- Whether the list `p` occurs as a contiguous block somewhere in `l`. -/
def occursIn (p : List Char) : List Char → Bool
  | [] => p.isEmpty
  | b :: l => startsWith p (b :: l) || occursIn p l

/-- The text `name` occurs in the message. -/
def mentions (message name : String) : Bool := occursIn name.toList message.toList

/-- Whether an event is a call of `free`. -/
def Event.isFree : Event → Bool
  | .free .. => true
  | .dlsym .. => false
  | .dlclose .. => false
  | .dlerror => false
  | .fopen .. => false
  | .fseek .. => false
  | .ftell => false
  | .malloc .. => false
  | .fread .. => false
  | .fclose => false
  | .create_platform .. => false
  | .create_environment .. => false
  | .create_external_buffer .. => false
  | .get_global .. => false
  | .create_string_latin1 .. => false
  | .set_property .. => false
  | .run_script .. => false
  | .run_environment .. => false
  | .destroy_environment .. => false
  | .destroy_platform .. => false

/-- Whether an event is a `create_external_buffer` call with a non-null finalizer. -/
def Event.givesFinalizer : Event → Bool
  | .create_external_buffer _ _ _ finalize_cb _ => decide (finalize_cb ≠ NULL)
  | .free .. => false
  | .dlsym .. => false
  | .dlclose .. => false
  | .dlerror => false
  | .fopen .. => false
  | .fseek .. => false
  | .ftell => false
  | .malloc .. => false
  | .fread .. => false
  | .fclose => false
  | .create_platform .. => false
  | .create_environment .. => false
  | .get_global .. => false
  | .create_string_latin1 .. => false
  | .set_property .. => false
  | .run_script .. => false
  | .run_environment .. => false
  | .destroy_environment .. => false
  | .destroy_platform .. => false

/-- The session frees the entrypoint buffer itself. -/
def sessionFrees (t : List Event) : Bool := t.any Event.isFree

/-- The engine is handed a non-null finalizer with the external buffer. -/
def finalizerGiven (t : List Event) : Bool := t.any Event.givesFinalizer

/-- The handle an event closes, if the event is a `dlclose` call. -/
def Event.closed? : Event → Option Ptr
  | .dlclose handle => some handle
  | .dlsym .. => none
  | .dlerror => none
  | .fopen .. => none
  | .fseek .. => none
  | .ftell => none
  | .malloc .. => none
  | .fread .. => none
  | .fclose => none
  | .free .. => none
  | .create_platform .. => none
  | .create_environment .. => none
  | .create_external_buffer .. => none
  | .get_global .. => none
  | .create_string_latin1 .. => none
  | .set_property .. => none
  | .run_script .. => none
  | .run_environment .. => none
  | .destroy_environment .. => none
  | .destroy_platform .. => none

/-- The handles closed in a trace, in order. -/
def closedHandles (t : List Event) : List Ptr := t.filterMap Event.closed?

instance (w : World) (cookie : Ptr) : Decidable (allResolved w cookie) :=
  inferInstanceAs (Decidable (∀ s ∈ requiredSymbols, w.dlsym cookie s ≠ NULL))

instance (w : World) (cookie : Ptr) : Decidable (someMissing w cookie) :=
  inferInstanceAs (Decidable (∃ s ∈ requiredSymbols, w.dlsym cookie s = NULL))

instance (f : EntryFile) : Decidable f.readInFull :=
  inferInstanceAs (Decidable (0 < f.contents.length ∧ f.contents.length ≤ f.delivered))

/-! ## Concrete worlds -/

/-- An eight-byte entrypoint (the WebAssembly magic and version) that reads in full. -/
def wasmFile : EntryFile :=
  { contents := [0, 97, 115, 109, 1, 0, 0, 0], delivered := 8 }

/-- An entrypoint whose read stops after three of its eight bytes. -/
def shortFile : EntryFile :=
  { contents := [0, 97, 115, 109, 1, 0, 0, 0], delivered := 3 }

/-- An engine whose calls all return `napi_ok` and whose guest exits with code 4. -/
def okEngine : Engine :=
  { create_platform_status := napi_ok, platform := 11,
    create_environment_status := napi_ok, env := 12,
    create_external_buffer_status := napi_ok, wasm_buffer := 13,
    get_global_status := napi_ok, global := 14,
    create_key_status := napi_ok, wasm_key := 15,
    set_property_status := napi_ok,
    create_script_status := napi_ok, script := 16,
    run_script_status := napi_ok, result := 17,
    run_environment_status := napi_ok,
    destroy_environment_status := napi_ok,
    destroy_platform_status := napi_ok, exit_code := 4 }

/-- The engine `okEngine` except that `run_script` returns status 10. -/
def scriptFailEngine : Engine :=
  { okEngine with run_script_status := 10 }

/-- A library that exports every symbol, an entrypoint that reads in full, and `okEngine`. -/
def okWorld : World :=
  { dlsym := fun _ _ => 1, fopen := fun _ => some wasmFile, engine := okEngine }

/-- The world `okWorld` with the engine `scriptFailEngine`. -/
def scriptFailWorld : World :=
  { okWorld with engine := scriptFailEngine }

/-- The world `okWorld` with an entrypoint whose read comes up short. -/
def shortReadWorld : World :=
  { okWorld with fopen := fun _ => some shortFile }

/-- The world `okWorld` with a library that lacks the one symbol `missing`. -/
def libWithout (missing : String) : World :=
  { okWorld with dlsym := fun _ s => if s = missing then NULL else 1 }

/-! ## Auxiliary facts -/

theorem allResolved_iff (w : World) (cookie : Ptr) :
    allResolved w cookie ↔
      ¬ (w.dlsym cookie "napi_create_platform" = NULL ∨
         w.dlsym cookie "napi_create_environment" = NULL ∨
         w.dlsym cookie "napi_create_string_latin1" = NULL ∨
         w.dlsym cookie "napi_create_external_arraybuffer" = NULL ∨
         w.dlsym cookie "napi_get_global" = NULL ∨
         w.dlsym cookie "napi_run_script" = NULL ∨
         w.dlsym cookie "napi_create_typedarray" = NULL ∨
         w.dlsym cookie "napi_create_external_buffer" = NULL ∨
         w.dlsym cookie "napi_run_environment" = NULL ∨
         w.dlsym cookie "napi_destroy_environment" = NULL ∨
         w.dlsym cookie "napi_destroy_platform" = NULL ∨
         w.dlsym cookie "napi_set_property" = NULL) := by
  simp only [allResolved, requiredSymbols, List.forall_mem_cons, List.mem_singleton,
    forall_eq, List.not_mem_nil, not_or, ne_eq]
  tauto

theorem someMissing_iff_not_allResolved (w : World) (cookie : Ptr) :
    someMissing w cookie ↔ ¬ allResolved w cookie := by
  simp [someMissing, allResolved]

theorem fread_readInFull (f : EntryFile) (h : f.readInFull) :
    fread f f.contents.length 1 = (1, f.contents) := by
  obtain ⟨hpos, hle⟩ := h
  have hne : f.contents.length ≠ 0 := Nat.pos_iff_ne_zero.mp hpos
  simp [fread, hne, Nat.min_eq_left hle, Nat.div_self hpos]

theorem fread_not_readInFull (f : EntryFile) (h : ¬ f.readInFull) :
    (fread f f.contents.length 1).1 ≠ 1 := by
  unfold EntryFile.readInFull at h
  by_cases h0 : f.contents.length = 0
  · simp [fread, h0]
  · have hlt : f.delivered < f.contents.length := by omega
    have hmin : min f.contents.length f.delivered = f.delivered := Nat.min_eq_right (by omega)
    have hlen : min f.delivered f.contents.length = f.delivered := Nat.min_eq_left (by omega)
    simp [fread, h0, hmin, List.length_take, hlen, Nat.div_eq_of_lt hlt]

@[simp] theorem emit_trace (evs : List Event) (o : Outcome) :
    (emit evs o).trace = evs ++ o.trace := rfl

@[simp] theorem emit_diagnostic (evs : List Event) (o : Outcome) :
    (emit evs o).diagnostic = o.diagnostic := rfl

@[simp] theorem emit_exit_status (evs : List Event) (o : Outcome) :
    (emit evs o).exit_status = o.exit_status := rfl

theorem check_ok (msg : String) (o : Outcome) : NODE_API_CHECK napi_ok msg o = o := by
  simp [NODE_API_CHECK]

theorem check_fail {st : napi_status} (h : st ≠ napi_ok) (msg : String) (o : Outcome) :
    NODE_API_CHECK st msg o = error EXIT_FAILURE msg := by
  simp [NODE_API_CHECK, h]

/-! ## The order of engine calls -/

/-- Claim C6: with the symbols resolved and the file read in full, the engine calls of
a run are the fixed session order cut off right after the first call whose status
is not `napi_ok`, and the whole order when no call fails. -/
theorem exec_engineCalls_cut {Container : Type} (w : World) (cookie : Ptr)
    (container : Container) (pathname : String) (argv : List String) (file : EntryFile)
    (hsym : allResolved w cookie) (hopen : w.fopen pathname = some file)
    (hfull : file.readInFull) :
    engineCalls (libwasm_nodejs_exec w cookie container pathname argv).trace
      = sessionOrder.take (w.engine.okCount + 1) := by
  have hs := (allResolved_iff w cookie).mp hsym
  have hr := fread_readInFull file hfull
  simp only [libwasm_nodejs_exec, if_neg hs, hopen, hr]
  simp only [Engine.okCount, Engine.statuses, steps, List.map, Engine.status]
  by_cases h1 : w.engine.create_platform_status = napi_ok
  swap
  · simp [check_ok, check_fail h1, error, engineCalls, Event.api?, sessionOrder, h1]
  by_cases h2 : w.engine.create_environment_status = napi_ok
  swap
  · simp [h1, check_ok, check_fail h2, error, engineCalls, Event.api?, sessionOrder, h2]
  by_cases h3 : w.engine.create_external_buffer_status = napi_ok
  swap
  · simp [h1, h2, check_ok, check_fail h3, error, engineCalls, Event.api?, sessionOrder, h3]
  by_cases h4 : w.engine.get_global_status = napi_ok
  swap
  · simp [h1, h2, h3, check_ok, check_fail h4, error, engineCalls, Event.api?, sessionOrder, h4]
  by_cases h5 : w.engine.create_key_status = napi_ok
  swap
  · simp [h1, h2, h3, h4, check_ok, check_fail h5, error, engineCalls, Event.api?, sessionOrder, h5]
  by_cases h6 : w.engine.set_property_status = napi_ok
  swap
  · simp [h1, h2, h3, h4, h5, check_ok, check_fail h6, error, engineCalls, Event.api?, sessionOrder, h6]
  by_cases h7 : w.engine.create_script_status = napi_ok
  swap
  · simp [h1, h2, h3, h4, h5, h6, check_ok, check_fail h7, error, engineCalls, Event.api?, sessionOrder, h7]
  by_cases h8 : w.engine.run_script_status = napi_ok
  swap
  · simp [h1, h2, h3, h4, h5, h6, h7, check_ok, check_fail h8, error, engineCalls, Event.api?, sessionOrder, h8]
  by_cases h9 : w.engine.run_environment_status = napi_ok
  swap
  · simp [h1, h2, h3, h4, h5, h6, h7, h8, check_ok, check_fail h9, error, engineCalls, Event.api?, sessionOrder, h9]
  by_cases h10 : w.engine.destroy_environment_status = napi_ok
  swap
  · simp [h1, h2, h3, h4, h5, h6, h7, h8, h9, check_ok, check_fail h10, error, engineCalls, Event.api?, sessionOrder, h10]
  by_cases h11 : w.engine.destroy_platform_status = napi_ok
  swap
  · simp [h1, h2, h3, h4, h5, h6, h7, h8, h9, h10, check_ok, check_fail h11, error, engineCalls, Event.api?, sessionOrder, h11]
  simp [h1, h2, h3, h4, h5, h6, h7, h8, h9, h10, h11, check_ok, exit, engineCalls, Event.api?, sessionOrder]

/-! ## The exit status of a successful run -/

/-- Claim C1: when all twelve symbols resolve, the entrypoint is read in full and every
engine call returns `napi_ok`, the process ends through `exit` with the exit code
that `destroy_platform` yielded, whatever that code is, and no diagnostic is given. -/
theorem exec_exit_code {Container : Type} (w : World) (cookie : Ptr)
    (container : Container) (pathname : String) (argv : List String) (file : EntryFile)
    (c : Int)
    (hsym : allResolved w cookie) (hopen : w.fopen pathname = some file)
    (hfull : file.readInFull) (hok : ∀ s : Step, w.engine.status s = napi_ok)
    (hc : w.engine.exit_code = c) :
    (libwasm_nodejs_exec w cookie container pathname argv).exit_status = c ∧
      (libwasm_nodejs_exec w cookie container pathname argv).diagnostic = none := by
  have hs := (allResolved_iff w cookie).mp hsym
  have hr := fread_readInFull file hfull
  have h1 : w.engine.create_platform_status = napi_ok := hok .create_platform
  have h2 : w.engine.create_environment_status = napi_ok := hok .create_environment
  have h3 : w.engine.create_external_buffer_status = napi_ok := hok .create_external_buffer
  have h4 : w.engine.get_global_status = napi_ok := hok .get_global
  have h5 : w.engine.create_key_status = napi_ok := hok .create_key
  have h6 : w.engine.set_property_status = napi_ok := hok .set_property
  have h7 : w.engine.create_script_status = napi_ok := hok .create_script
  have h8 : w.engine.run_script_status = napi_ok := hok .run_script
  have h9 : w.engine.run_environment_status = napi_ok := hok .run_environment
  have h10 : w.engine.destroy_environment_status = napi_ok := hok .destroy_environment
  have h11 : w.engine.destroy_platform_status = napi_ok := hok .destroy_platform
  simp [libwasm_nodejs_exec, if_neg hs, hopen, hr, h1, h2, h3, h4, h5, h6, h7, h8, h9, h10, h11, check_ok, exit, hc]

/-! ## Missing symbols -/

/-- Claim C2: when at least one of the twelve required symbols does not resolve, the
process ends with status 1 after the twelve `dlsym` calls and nothing else: no engine
call is made (no platform, environment or buffer is created) and no file is touched. -/
theorem exec_missing_symbol {Container : Type} (w : World) (cookie : Ptr)
    (container : Container) (pathname : String) (argv : List String)
    (hmiss : someMissing w cookie) :
    (libwasm_nodejs_exec w cookie container pathname argv).exit_status = 1 ∧
      engineCalls (libwasm_nodejs_exec w cookie container pathname argv).trace = [] ∧
      (libwasm_nodejs_exec w cookie container pathname argv).trace
        = requiredSymbols.map (Event.dlsym cookie) := by
  have hs := (not_congr (allResolved_iff w cookie)).mp
    ((someMissing_iff_not_allResolved w cookie).mp hmiss)
  rw [not_not] at hs
  simp [libwasm_nodejs_exec, if_pos hs, error, EXIT_FAILURE, engineCalls, Event.api?,
    requiredSymbols]

/-- Claim C3 (amended): when a required symbol is missing, the diagnostic is the one fixed
message, whichever symbol it is, and that message contains none of the twelve names. -/
theorem exec_missing_symbol_message {Container : Type} (w : World) (cookie : Ptr)
    (container : Container) (pathname : String) (argv : List String)
    (hmiss : someMissing w cookie) :
    (libwasm_nodejs_exec w cookie container pathname argv).diagnostic = some symbol_message ∧
      ∀ s ∈ requiredSymbols, mentions symbol_message s = false := by
  have hs := (not_congr (allResolved_iff w cookie)).mp
    ((someMissing_iff_not_allResolved w cookie).mp hmiss)
  rw [not_not] at hs
  refine ⟨by simp [libwasm_nodejs_exec, if_pos hs, error], by decide⟩

/-! ## Unreadable entrypoint -/

/-- Claim C4: with all symbols resolved, when the entrypoint cannot be opened, or is
empty, or the read delivers fewer bytes than its length, the process ends with
status 1 and a loader diagnostic, and no engine call is made. -/
theorem exec_unreadable_entrypoint {Container : Type} (w : World) (cookie : Ptr)
    (container : Container) (pathname : String) (argv : List String)
    (hsym : allResolved w cookie)
    (hbad : w.fopen pathname = none ∨
      ∃ f, w.fopen pathname = some f ∧ (f.contents.length = 0 ∨ f.delivered < f.contents.length)) :
    (libwasm_nodejs_exec w cookie container pathname argv).exit_status = 1 ∧
      engineCalls (libwasm_nodejs_exec w cookie container pathname argv).trace = [] ∧
      ((libwasm_nodejs_exec w cookie container pathname argv).diagnostic
          = some "error loading entrypoint" ∨
        (libwasm_nodejs_exec w cookie container pathname argv).diagnostic
          = some "error load") := by
  have hs := (allResolved_iff w cookie).mp hsym
  rcases hbad with hnone | ⟨f, hopen, hshort⟩
  · simp [libwasm_nodejs_exec, if_neg hs, hnone, error, EXIT_FAILURE, engineCalls, Event.api?]
  · have hnf : ¬ f.readInFull := by
      unfold EntryFile.readInFull
      omega
    have hr := fread_not_readInFull f hnf
    simp [libwasm_nodejs_exec, if_neg hs, hopen, if_pos hr, error, EXIT_FAILURE, engineCalls,
      Event.api?]

/-! ## Failing engine calls -/

/-- Claim C5: when call site `s` is the first to return a status other than `napi_ok`,
the process ends with status 1 and the diagnostic `stepMessage s`, which depends on
the failing call site alone; the eleven messages are pairwise distinct. -/
theorem exec_first_failure {Container : Type} (w : World) (cookie : Ptr)
    (container : Container) (pathname : String) (argv : List String) (file : EntryFile)
    (s : Step)
    (hsym : allResolved w cookie) (hopen : w.fopen pathname = some file)
    (hfull : file.readInFull) (hfail : w.engine.firstFailure s) :
    (libwasm_nodejs_exec w cookie container pathname argv).exit_status = 1 ∧
      (libwasm_nodejs_exec w cookie container pathname argv).diagnostic = some (stepMessage s) ∧
      Function.Injective stepMessage := by
  have hs := (allResolved_iff w cookie).mp hsym
  have hr := fread_readInFull file hfull
  obtain ⟨hne, hprev⟩ := hfail
  have h1 := hprev .create_platform
  have h2 := hprev .create_environment
  have h3 := hprev .create_external_buffer
  have h4 := hprev .get_global
  have h5 := hprev .create_key
  have h6 := hprev .set_property
  have h7 := hprev .create_script
  have h8 := hprev .run_script
  have h9 := hprev .run_environment
  have h10 := hprev .destroy_environment
  have h11 := hprev .destroy_platform
  refine ⟨?_, ?_, ?_⟩
  · cases s <;> simp only [Step.index, Engine.status] at * <;>
      simp_all [libwasm_nodejs_exec, NODE_API_CHECK, error, EXIT_FAILURE]
  · cases s <;> simp only [Step.index, Engine.status] at * <;>
      simp_all [libwasm_nodejs_exec, NODE_API_CHECK, error, stepMessage]
  · intro a b hab
    cases a <;> cases b <;> first | rfl | (exact absurd hab (by decide))

/-! ## The entrypoint buffer -/

/-- Claim C7: for an entrypoint of length `n > 0` read in full, every
`create_external_buffer` call of the run passes length `n` and exactly the file's
bytes, with the environment the engine returned; every `set_property` call passes
the global object, the key made from the text "wasm" and the value that
`create_external_buffer` produced.  The buffer call is made once the first two
calls succeed, the property is set once the first five succeed. -/
theorem exec_buffer_handoff {Container : Type} (w : World) (cookie : Ptr)
    (container : Container) (pathname : String) (argv : List String) (file : EntryFile)
    (hsym : allResolved w cookie) (hopen : w.fopen pathname = some file)
    (hpos : 0 < file.contents.length) (hall : file.contents.length ≤ file.delivered) :
    (∀ ev ∈ (libwasm_nodejs_exec w cookie container pathname argv).trace,
        ev.api? = some .create_external_buffer →
          ev = .create_external_buffer w.engine.env file.contents.length file.contents
                  NULL NULL) ∧
      (∀ ev ∈ (libwasm_nodejs_exec w cookie container pathname argv).trace,
        ev.api? = some .set_property →
          ev = .set_property w.engine.env w.engine.global w.engine.wasm_key
                  w.engine.wasm_buffer) ∧
      (2 ≤ w.engine.okCount →
        Event.create_external_buffer w.engine.env file.contents.length file.contents NULL NULL
          ∈ (libwasm_nodejs_exec w cookie container pathname argv).trace) ∧
      (5 ≤ w.engine.okCount →
        Event.create_string_latin1 w.engine.env "wasm" NAPI_AUTO_LENGTH
            ∈ (libwasm_nodejs_exec w cookie container pathname argv).trace ∧
          Event.set_property w.engine.env w.engine.global w.engine.wasm_key
              w.engine.wasm_buffer
            ∈ (libwasm_nodejs_exec w cookie container pathname argv).trace) := by
  have hs := (allResolved_iff w cookie).mp hsym
  have hr := fread_readInFull file ⟨hpos, hall⟩
  refine ⟨?_, ?_, ?_, ?_⟩ <;>
  · simp only [libwasm_nodejs_exec, if_neg hs, hopen, hr]
    generalize script_chars = sc
    try simp only [Engine.okCount, Engine.statuses, steps, List.map, Engine.status]
    by_cases h1 : w.engine.create_platform_status = napi_ok
    swap
    · simp only [check_ok, check_fail h1, error, emit_trace, List.cons_append, List.nil_append, List.append_nil, List.forall_mem_cons]
      simp [Event.api?, h1]
    by_cases h2 : w.engine.create_environment_status = napi_ok
    swap
    · simp only [h1, check_ok, check_fail h2, error, emit_trace, List.cons_append, List.nil_append, List.append_nil, List.forall_mem_cons]
      simp [Event.api?, h2]
    by_cases h3 : w.engine.create_external_buffer_status = napi_ok
    swap
    · simp only [h1, h2, check_ok, check_fail h3, error, emit_trace, List.cons_append, List.nil_append, List.append_nil, List.forall_mem_cons]
      simp [Event.api?, h3]
    by_cases h4 : w.engine.get_global_status = napi_ok
    swap
    · simp only [h1, h2, h3, check_ok, check_fail h4, error, emit_trace, List.cons_append, List.nil_append, List.append_nil, List.forall_mem_cons]
      simp [Event.api?, h4]
    by_cases h5 : w.engine.create_key_status = napi_ok
    swap
    · simp only [h1, h2, h3, h4, check_ok, check_fail h5, error, emit_trace, List.cons_append, List.nil_append, List.append_nil, List.forall_mem_cons]
      simp [Event.api?, h5]
    by_cases h6 : w.engine.set_property_status = napi_ok
    swap
    · simp only [h1, h2, h3, h4, h5, check_ok, check_fail h6, error, emit_trace, List.cons_append, List.nil_append, List.append_nil, List.forall_mem_cons]
      simp [Event.api?, h6]
    by_cases h7 : w.engine.create_script_status = napi_ok
    swap
    · simp only [h1, h2, h3, h4, h5, h6, check_ok, check_fail h7, error, emit_trace, List.cons_append, List.nil_append, List.append_nil, List.forall_mem_cons]
      simp [Event.api?, h7]
    by_cases h8 : w.engine.run_script_status = napi_ok
    swap
    · simp only [h1, h2, h3, h4, h5, h6, h7, check_ok, check_fail h8, error, emit_trace, List.cons_append, List.nil_append, List.append_nil, List.forall_mem_cons]
      simp [Event.api?, h8]
    by_cases h9 : w.engine.run_environment_status = napi_ok
    swap
    · simp only [h1, h2, h3, h4, h5, h6, h7, h8, check_ok, check_fail h9, error, emit_trace, List.cons_append, List.nil_append, List.append_nil, List.forall_mem_cons]
      simp [Event.api?, h9]
    by_cases h10 : w.engine.destroy_environment_status = napi_ok
    swap
    · simp only [h1, h2, h3, h4, h5, h6, h7, h8, h9, check_ok, check_fail h10, error, emit_trace, List.cons_append, List.nil_append, List.append_nil, List.forall_mem_cons]
      simp [Event.api?, h10]
    by_cases h11 : w.engine.destroy_platform_status = napi_ok
    swap
    · simp only [h1, h2, h3, h4, h5, h6, h7, h8, h9, h10, check_ok, check_fail h11, error, emit_trace, List.cons_append, List.nil_append, List.append_nil, List.forall_mem_cons]
      simp [Event.api?, h11]
    simp only [h1, h2, h3, h4, h5, h6, h7, h8, h9, h10, h11, check_ok, exit, emit_trace, List.cons_append, List.nil_append, List.append_nil, List.forall_mem_cons]
    simp [Event.api?]

/-- Witness of C1: in `okWorld` the guest exits with code 4 and so does the process. -/
theorem exec_exit_code_witness :
    (libwasm_nodejs_exec okWorld 1 () "/app.wasm" ["app.wasm"]).exit_status = 4 ∧
      (libwasm_nodejs_exec okWorld 1 () "/app.wasm" ["app.wasm"]).diagnostic = none :=
  exec_exit_code okWorld 1 () "/app.wasm" ["app.wasm"] wasmFile 4 (by decide) rfl (by decide)
    (by intro s; cases s <;> rfl) rfl

/-- Witness of C2: a library without `napi_run_environment`. -/
theorem exec_missing_symbol_witness :
    someMissing (libWithout "napi_run_environment") 1 ∧
      (libwasm_nodejs_exec (libWithout "napi_run_environment") 1 () "/app.wasm" []).exit_status
        = 1 ∧
      engineCalls
        (libwasm_nodejs_exec (libWithout "napi_run_environment") 1 () "/app.wasm" []).trace
        = [] :=
  have h : someMissing (libWithout "napi_run_environment") 1 :=
    ⟨"napi_run_environment", by simp [requiredSymbols], by simp [libWithout]⟩
  ⟨h, (exec_missing_symbol _ 1 () "/app.wasm" [] h).1,
    (exec_missing_symbol _ 1 () "/app.wasm" [] h).2.1⟩

/-- Counterexample to C3 as stated: a library that lacks only `napi_run_environment` and
one that lacks only `napi_create_platform` get the same diagnostic, and that
diagnostic contains neither name. -/
theorem exec_missing_symbol_not_named :
    (libwasm_nodejs_exec (libWithout "napi_run_environment") 1 () "/app.wasm" []).diagnostic
        = some symbol_message ∧
      (libwasm_nodejs_exec (libWithout "napi_create_platform") 1 () "/app.wasm" []).diagnostic
        = some symbol_message ∧
      mentions symbol_message "napi_run_environment" = false ∧
      mentions symbol_message "napi_create_platform" = false := by
  refine ⟨?_, ?_, by decide, by decide⟩
  · simp [libwasm_nodejs_exec, libWithout, error]
  · simp [libwasm_nodejs_exec, libWithout, error]

/-- Witness of C3 (amended): a library without `napi_destroy_platform`. -/
theorem exec_missing_symbol_message_witness :
    someMissing (libWithout "napi_destroy_platform") 1 ∧
      (libwasm_nodejs_exec (libWithout "napi_destroy_platform") 1 () "/app.wasm" []).diagnostic
        = some "could not find symbol in \x60libnode.so\x60" :=
  have h : someMissing (libWithout "napi_destroy_platform") 1 :=
    ⟨"napi_destroy_platform", by simp [requiredSymbols], by simp [libWithout]⟩
  ⟨h, (exec_missing_symbol_message _ 1 () "/app.wasm" [] h).1⟩

/-- Witness of C4: an entrypoint whose read delivers three of its eight bytes. -/
theorem exec_unreadable_entrypoint_witness :
    (libwasm_nodejs_exec shortReadWorld 1 () "/app.wasm" []).exit_status = 1 ∧
      engineCalls (libwasm_nodejs_exec shortReadWorld 1 () "/app.wasm" []).trace = [] :=
  have h := exec_unreadable_entrypoint shortReadWorld 1 () "/app.wasm" [] (by decide)
    (Or.inr ⟨shortFile, rfl, Or.inr (by decide)⟩)
  ⟨h.1, h.2.1⟩

/-- Witness of C5: `run_script` is the first call to fail. -/
theorem exec_first_failure_witness :
    (libwasm_nodejs_exec scriptFailWorld 1 () "/app.wasm" []).exit_status = 1 ∧
      (libwasm_nodejs_exec scriptFailWorld 1 () "/app.wasm" []).diagnostic
        = some "failed to run script" :=
  have h := exec_first_failure scriptFailWorld 1 () "/app.wasm" [] wasmFile .run_script
    (by decide) rfl (by decide)
    ⟨by decide, by intro s' hlt; cases s' <;> first | rfl | exact absurd hlt (by decide)⟩
  ⟨h.1, h.2.1⟩

/-- Witness of C6: when `run_script` fails, the calls stop right after it. -/
theorem exec_engineCalls_cut_witness :
    engineCalls (libwasm_nodejs_exec scriptFailWorld 1 () "/app.wasm" []).trace
      = [.create_platform, .create_environment, .create_external_buffer, .get_global,
         .create_string_latin1, .set_property, .create_string_latin1, .run_script] :=
  (exec_engineCalls_cut scriptFailWorld 1 () "/app.wasm" [] wasmFile (by decide) rfl
    (by decide)).trans (by decide)

/-- Witness of C7: in `okWorld` the eight bytes of the file reach the engine and the
value 13 returned for them is set on the global object. -/
theorem exec_buffer_handoff_witness :
    Event.create_external_buffer 12 8 [0, 97, 115, 109, 1, 0, 0, 0] NULL NULL
        ∈ (libwasm_nodejs_exec okWorld 1 () "/app.wasm" []).trace ∧
      Event.set_property 12 14 15 13
        ∈ (libwasm_nodejs_exec okWorld 1 () "/app.wasm" []).trace :=
  have h := exec_buffer_handoff okWorld 1 () "/app.wasm" [] wasmFile (by decide) rfl
    (by decide) (by decide)
  ⟨h.2.2.1 (by decide), (h.2.2.2 (by decide)).2⟩

/-! ## Ownership of the entrypoint buffer -/

/-- Counterexample to C8 as stated: the run in `okWorld` succeeds (exit status 4, no
diagnostic), the finalizer handed to the engine is null and the buffer is never
freed. -/
theorem exec_buffer_never_released :
    (libwasm_nodejs_exec okWorld 1 () "/app.wasm" []).exit_status = 4 ∧
      (libwasm_nodejs_exec okWorld 1 () "/app.wasm" []).diagnostic = none ∧
      finalizerGiven (libwasm_nodejs_exec okWorld 1 () "/app.wasm" []).trace = false ∧
      sessionFrees (libwasm_nodejs_exec okWorld 1 () "/app.wasm" []).trace = false := by
  decide

/-- Claim C8 (amended): on every successful run the `create_external_buffer` call is made
with a null finalizer and a null hint, no call in the run passes a non-null
finalizer, and the session never calls `free`; the run then leaves through `exit`
with the guest's exit code. -/
theorem exec_buffer_policy {Container : Type} (w : World) (cookie : Ptr)
    (container : Container) (pathname : String) (argv : List String) (file : EntryFile)
    (hsym : allResolved w cookie) (hopen : w.fopen pathname = some file)
    (hfull : file.readInFull) (hok : ∀ s : Step, w.engine.status s = napi_ok) :
    Event.create_external_buffer w.engine.env file.contents.length file.contents NULL NULL
        ∈ (libwasm_nodejs_exec w cookie container pathname argv).trace ∧
      finalizerGiven (libwasm_nodejs_exec w cookie container pathname argv).trace = false ∧
      sessionFrees (libwasm_nodejs_exec w cookie container pathname argv).trace = false ∧
      (libwasm_nodejs_exec w cookie container pathname argv).exit_status
        = w.engine.exit_code := by
  have hs := (allResolved_iff w cookie).mp hsym
  have hr := fread_readInFull file hfull
  have h1 : w.engine.create_platform_status = napi_ok := hok .create_platform
  have h2 : w.engine.create_environment_status = napi_ok := hok .create_environment
  have h3 : w.engine.create_external_buffer_status = napi_ok := hok .create_external_buffer
  have h4 : w.engine.get_global_status = napi_ok := hok .get_global
  have h5 : w.engine.create_key_status = napi_ok := hok .create_key
  have h6 : w.engine.set_property_status = napi_ok := hok .set_property
  have h7 : w.engine.create_script_status = napi_ok := hok .create_script
  have h8 : w.engine.run_script_status = napi_ok := hok .run_script
  have h9 : w.engine.run_environment_status = napi_ok := hok .run_environment
  have h10 : w.engine.destroy_environment_status = napi_ok := hok .destroy_environment
  have h11 : w.engine.destroy_platform_status = napi_ok := hok .destroy_platform
  refine ⟨?_, ?_, ?_, ?_⟩ <;>
  · simp only [libwasm_nodejs_exec, if_neg hs, hopen, hr, h1, h2, h3, h4, h5, h6, h7, h8, h9, h10, h11, check_ok, exit, emit_trace,
      emit_exit_status, List.cons_append, List.nil_append, List.append_nil, finalizerGiven,
      sessionFrees, List.any_cons, List.any_nil, Event.isFree, Event.givesFinalizer]
    try simp [Event.isFree, Event.givesFinalizer]

/-- Witness of C8 (amended): the successful run in `okWorld`. -/
theorem exec_buffer_policy_witness :
    Event.create_external_buffer 12 8 [0, 97, 115, 109, 1, 0, 0, 0] 0 0
        ∈ (libwasm_nodejs_exec okWorld 1 () "/app.wasm" []).trace ∧
      finalizerGiven (libwasm_nodejs_exec okWorld 1 () "/app.wasm" []).trace = false ∧
      sessionFrees (libwasm_nodejs_exec okWorld 1 () "/app.wasm" []).trace = false :=
  have h := exec_buffer_policy okWorld 1 () "/app.wasm" [] wasmFile (by decide) rfl
    (by decide) (by intro s; cases s <;> rfl)
  ⟨h.1, h.2.1, h.2.2.1⟩

/-! ## Unloading -/

/-- Claim C9 at a failing input: `dlclose` returns the non-zero value 1 for the non-null
handle 7, which reports a failed close, yet `libwasm_nodejs_unload` closes the handle
once, returns 0 and stores no error: the test `r < 0` misses the failure that the
error branch is there to report. -/
theorem unload_positive_close_result :
    (7 : Ptr) ≠ NULL ∧ (fun _ : Ptr => (1 : Int)) 7 ≠ 0 ∧
      closedHandles (libwasm_nodejs_unload (fun _ => 1) "busy" (-1) 7).trace = [7] ∧
      (libwasm_nodejs_unload (fun _ => 1) "busy" (-1) 7).err = none ∧
      (libwasm_nodejs_unload (fun _ => 1) "busy" (-1) 7).ret = 0 := by
  decide

/-- What `libwasm_nodejs_unload` does for a non-null handle: it calls `dlclose` on that
handle exactly once and stores an error exactly when the result is negative; it then
returns what `crun_make_error` returns, with a message made of the fixed text and the
loader's report.  For any other result it returns 0 and stores no error. -/
theorem unload_behaviour (dlclose : Ptr → Int) (dlerror : String) (make_error_ret : Int)
    (cookie : Ptr) (hcookie : cookie ≠ NULL) :
    closedHandles (libwasm_nodejs_unload dlclose dlerror make_error_ret cookie).trace
        = [cookie] ∧
      ((libwasm_nodejs_unload dlclose dlerror make_error_ret cookie).err.isSome = true
        ↔ dlclose cookie < 0) ∧
      (dlclose cookie < 0 →
        (libwasm_nodejs_unload dlclose dlerror make_error_ret cookie).ret = make_error_ret ∧
          (libwasm_nodejs_unload dlclose dlerror make_error_ret cookie).err
            = some (0, "could not unload handle: " ++ dlerror)) ∧
      (0 ≤ dlclose cookie →
        (libwasm_nodejs_unload dlclose dlerror make_error_ret cookie).ret = 0 ∧
          (libwasm_nodejs_unload dlclose dlerror make_error_ret cookie).err = none) := by
  by_cases hr : dlclose cookie < 0
  · have hn : ¬ 0 ≤ dlclose cookie := by omega
    simp [libwasm_nodejs_unload, hcookie, hr, hn, closedHandles, Event.closed?]
  · have hn : 0 ≤ dlclose cookie := by omega
    simp [libwasm_nodejs_unload, hcookie, hr, hn, closedHandles, Event.closed?]

/-- Whenever `dlclose` returns 0 or a negative value, `libwasm_nodejs_unload` closes the
non-null handle exactly once, stores an error if and only if the result is not 0, and
on the result 0 returns 0 with no error: the positive results are the only ones on
which the code departs from this. -/
theorem unload_of_nonpos (dlclose : Ptr → Int) (dlerror : String) (make_error_ret : Int)
    (cookie : Ptr) (hcookie : cookie ≠ NULL) (hle : dlclose cookie ≤ 0) :
    closedHandles (libwasm_nodejs_unload dlclose dlerror make_error_ret cookie).trace
        = [cookie] ∧
      ((libwasm_nodejs_unload dlclose dlerror make_error_ret cookie).err.isSome = true
        ↔ dlclose cookie ≠ 0) ∧
      (dlclose cookie = 0 →
        (libwasm_nodejs_unload dlclose dlerror make_error_ret cookie).ret = 0 ∧
          (libwasm_nodejs_unload dlclose dlerror make_error_ret cookie).err = none) := by
  by_cases hr : dlclose cookie < 0
  · have hn : dlclose cookie ≠ 0 := by omega
    simp [libwasm_nodejs_unload, hcookie, hr, hn, closedHandles, Event.closed?]
  · have hn : dlclose cookie = 0 := by omega
    simp [libwasm_nodejs_unload, hcookie, hn, closedHandles, Event.closed?]

/-- The case of `unload_of_nonpos` in which `dlclose` returns -1 for the handle 7. -/
theorem unload_of_nonpos_at_failed_close :
    closedHandles (libwasm_nodejs_unload (fun _ => -1) "busy" (-1) 7).trace = [7] ∧
      (libwasm_nodejs_unload (fun _ => -1) "busy" (-1) 7).err.isSome = true :=
  have h := unload_of_nonpos (fun _ => -1) "busy" (-1) 7 (by decide) (by decide)
  ⟨h.1, h.2.1.mpr (by decide)⟩

/-! ## The unused parameters -/

/-- Claim C10: the run does not depend on `container` or `argv`: two calls that differ
only in these have the same outcome (the same external calls with the same
arguments, the same diagnostic and the same exit status); and whatever the world,
every `create_platform` call passes the fixed argument list and no execution
arguments. -/
theorem exec_ignores_container_argv {C₁ C₂ : Type} (w : World) (cookie : Ptr)
    (pathname : String) (c₁ : C₁) (c₂ : C₂) (argv₁ argv₂ : List String) :
    libwasm_nodejs_exec w cookie c₁ pathname argv₁
        = libwasm_nodejs_exec w cookie c₂ pathname argv₂ ∧
      ∀ ev ∈ (libwasm_nodejs_exec w cookie c₁ pathname argv₁).trace,
        ev.api? = some .create_platform →
          ev = .create_platform 3 the_argv 0 NULL NULL 0 := by
  refine ⟨rfl, ?_⟩
  by_cases hsym : allResolved w cookie
  swap
  · have hs := not_not.mp ((not_congr (allResolved_iff w cookie)).mp hsym)
    simp only [libwasm_nodejs_exec, if_pos hs, error, emit_trace, List.cons_append, List.nil_append, List.append_nil, List.forall_mem_cons]
    simp [Event.api?]
  have hs := (allResolved_iff w cookie).mp hsym
  rcases hopen : w.fopen pathname with _ | file
  · simp only [libwasm_nodejs_exec, if_neg hs, hopen, error, emit_trace, List.cons_append, List.nil_append, List.append_nil, List.forall_mem_cons]
    simp [Event.api?]
  by_cases hfull : file.readInFull
  swap
  · have hr := fread_not_readInFull file hfull
    simp only [libwasm_nodejs_exec, if_neg hs, hopen, if_pos hr, error, emit_trace, List.cons_append, List.nil_append, List.append_nil, List.forall_mem_cons]
    simp [Event.api?]
  have hr := fread_readInFull file hfull
  simp only [libwasm_nodejs_exec, if_neg hs, hopen, hr]
  generalize script_chars = sc
  by_cases h1 : w.engine.create_platform_status = napi_ok
  swap
  · simp only [check_ok, check_fail h1, error, emit_trace, List.cons_append, List.nil_append, List.append_nil, List.forall_mem_cons]
    simp [Event.api?]
  by_cases h2 : w.engine.create_environment_status = napi_ok
  swap
  · simp only [h1, check_ok, check_fail h2, error, emit_trace, List.cons_append, List.nil_append, List.append_nil, List.forall_mem_cons]
    simp [Event.api?]
  by_cases h3 : w.engine.create_external_buffer_status = napi_ok
  swap
  · simp only [h1, h2, check_ok, check_fail h3, error, emit_trace, List.cons_append, List.nil_append, List.append_nil, List.forall_mem_cons]
    simp [Event.api?]
  by_cases h4 : w.engine.get_global_status = napi_ok
  swap
  · simp only [h1, h2, h3, check_ok, check_fail h4, error, emit_trace, List.cons_append, List.nil_append, List.append_nil, List.forall_mem_cons]
    simp [Event.api?]
  by_cases h5 : w.engine.create_key_status = napi_ok
  swap
  · simp only [h1, h2, h3, h4, check_ok, check_fail h5, error, emit_trace, List.cons_append, List.nil_append, List.append_nil, List.forall_mem_cons]
    simp [Event.api?]
  by_cases h6 : w.engine.set_property_status = napi_ok
  swap
  · simp only [h1, h2, h3, h4, h5, check_ok, check_fail h6, error, emit_trace, List.cons_append, List.nil_append, List.append_nil, List.forall_mem_cons]
    simp [Event.api?]
  by_cases h7 : w.engine.create_script_status = napi_ok
  swap
  · simp only [h1, h2, h3, h4, h5, h6, check_ok, check_fail h7, error, emit_trace, List.cons_append, List.nil_append, List.append_nil, List.forall_mem_cons]
    simp [Event.api?]
  by_cases h8 : w.engine.run_script_status = napi_ok
  swap
  · simp only [h1, h2, h3, h4, h5, h6, h7, check_ok, check_fail h8, error, emit_trace, List.cons_append, List.nil_append, List.append_nil, List.forall_mem_cons]
    simp [Event.api?]
  by_cases h9 : w.engine.run_environment_status = napi_ok
  swap
  · simp only [h1, h2, h3, h4, h5, h6, h7, h8, check_ok, check_fail h9, error, emit_trace, List.cons_append, List.nil_append, List.append_nil, List.forall_mem_cons]
    simp [Event.api?]
  by_cases h10 : w.engine.destroy_environment_status = napi_ok
  swap
  · simp only [h1, h2, h3, h4, h5, h6, h7, h8, h9, check_ok, check_fail h10, error, emit_trace, List.cons_append, List.nil_append, List.append_nil, List.forall_mem_cons]
    simp [Event.api?]
  by_cases h11 : w.engine.destroy_platform_status = napi_ok
  swap
  · simp only [h1, h2, h3, h4, h5, h6, h7, h8, h9, h10, check_ok, check_fail h11, error, emit_trace, List.cons_append, List.nil_append, List.append_nil, List.forall_mem_cons]
    simp [Event.api?]
  simp only [h1, h2, h3, h4, h5, h6, h7, h8, h9, h10, h11, check_ok, exit, emit_trace, List.cons_append, List.nil_append, List.append_nil, List.forall_mem_cons]
  simp [Event.api?]

end WasmNodejs
